import Mathlib

/-!
# Shallow embedding of the developer-directory backend

The repository is an Express application (`src/server.js`) over a MySQL
schema (`src/unnamed/part_001`).  We embed the request handlers that the
claims are about as pure Lean functions over an explicit database state:

* each MySQL table becomes a list of records (`developers`, `contacts`);
* each SQL statement becomes the corresponding list operation
  (`SELECT ... WHERE` is `List.find?`/`List.filter`,
  `COUNT(DISTINCT developerId)` is `List.eraseDups` + `List.length`,
  `INSERT` is an append);
* a request handler becomes a function from the request data and the
  database state to the response together with the resulting state;
* `new Date().toISOString().split(\x27T\x27)[0]` (the current UTC calendar
  day) is passed in as the `today` argument, and `Date.now().toString()`
  (a fresh row id) as an explicit id argument.

For the concurrency claim about the contact ledger we additionally give a
small-step model in which the individual SQL statements of two concurrent
contact requests may interleave; there the `UNIQUE KEY unique_contact
(userId, developerId, date)` of the `contacts` table is modelled at the
level of the single `INSERT` statement.
-/

namespace DevDirectory

/-- User roles, from the `role ENUM('student', 'company', 'admin')` column of
the `users` table and the role checks in `src/server.js`. -/
inductive Role where
  | student
  | company
  | admin
  deriving DecidableEq, Repr

/-- An authenticated principal, as decoded from a JWT by `authenticateToken`
(`src/server.js`, lines 53-68): the token payload carries `userId` and
`role` (the `email` field of the payload is unused by the handlers we
model). -/
structure Principal where
  userId : String
  role : Role
  deriving DecidableEq, Repr

/-- How a read-only request presents itself to the public developer
endpoints: no `Authorization` token at all, a token that fails
`jwt.verify`, or a validly decoded principal. -/
inductive Viewer where
  | anonymous
  | invalidToken
  | authed (p : Principal)
  deriving DecidableEq, Repr

/-- A row of the `developers` table (`src/unnamed/part_001`, lines 68-86).
`github` and `linkedin` are nullable columns, hence `Option String`.  The
`createdAt`/`updatedAt` timestamps play no role in any claim and are
omitted from the row. -/
structure Developer where
  id : String
  userId : String
  firstName : String
  lastName : String
  workType : String
  field : String
  github : Option String
  linkedin : Option String
  email : String
  deriving DecidableEq, Repr

/-- A developer as serialized in a response of the two public read
endpoints.  Express's `res.json` drops object keys whose value is
`undefined`, so a field set to `undefined` by the handler is *absent* from
the response; we model presence-or-absence with an outer `Option`:
`email = none` means the key is absent, and for the nullable columns
`github`/`linkedin` the value `some v` means the key is present with the
stored (possibly null) value `v`. -/
structure DeveloperView where
  id : String
  userId : String
  firstName : String
  lastName : String
  workType : String
  field : String
  github : Option (Option String)
  linkedin : Option (Option String)
  email : Option String
  deriving DecidableEq, Repr

/-- The spread `{ ...dev, email: undefined, github: undefined,
linkedin: undefined }` used by both read endpoints: every column is kept
except that the three contact fields are dropped from the response. -/
def redactDev (d : Developer) : DeveloperView :=
  { id := d.id, userId := d.userId, firstName := d.firstName,
    lastName := d.lastName, workType := d.workType, field := d.field,
    github := none, linkedin := none, email := none }

/-- A developer row passed through to the response unchanged: every stored
field is present with its stored value. -/
def fullDev (d : Developer) : DeveloperView :=
  { id := d.id, userId := d.userId, firstName := d.firstName,
    lastName := d.lastName, workType := d.workType, field := d.field,
    github := some d.github, linkedin := some d.linkedin,
    email := some d.email }

/-- `GET /api/developers` (`src/server.js`, lines 290-337): all developer
rows are fetched; with no token, or a token failing `jwt.verify`, or a
decoded role of `company`, the contact fields are stripped from every row;
a decoded `student` or `admin` sees the rows unchanged. -/
def listDevelopers (v : Viewer) (devs : List Developer) : List DeveloperView :=
  match v with
  | .anonymous => devs.map redactDev
  | .invalidToken => devs.map redactDev
  | .authed p => if p.role = .company then devs.map redactDev else devs.map fullDev

/-- `GET /api/developers/:id` (`src/server.js`, lines 340-395): the row is
looked up by id (404, i.e. `none`, when absent), then exactly the same
redaction branch as the list endpoint is applied to the single row. -/
def getDeveloperById (v : Viewer) (devs : List Developer) (i : String) :
    Option DeveloperView :=
  match devs.find? (fun d => d.id == i) with
  | none => none
  | some d =>
      some (match v with
        | .anonymous => redactDev d
        | .invalidToken => redactDev d
        | .authed p => if p.role = .company then redactDev d else fullDev d)

/-- A row of the `contacts` table (`src/unnamed/part_001`, lines 89-102):
one recorded contact view, keyed for uniqueness by
`(userId, developerId, date)`. -/
structure Contact where
  id : String
  userId : String
  developerId : String
  date : String
  deriving DecidableEq, Repr

/-- The column triple covered by `UNIQUE KEY unique_contact
(userId, developerId, date)`. -/
def contactKey (c : Contact) : String × String × String :=
  (c.userId, c.developerId, c.date)

/-- The `SELECT id FROM contacts WHERE userId = ? AND developerId = ? AND
date = ?` duplicate check of the contact handler (`src/server.js`,
lines 618-623), reduced to whether the result set is nonempty. -/
def alreadyViewedToday (contacts : List Contact)
    (userId devId today : String) : Bool :=
  contacts.any fun c =>
    c.userId == userId && c.developerId == devId && c.date == today

/-- `SELECT COUNT(DISTINCT developerId) FROM contacts WHERE userId = ? AND
date = ?` (`src/server.js`, lines 628-631, 653-656 and 680-682). -/
def countDistinctToday (contacts : List Contact)
    (userId today : String) : Nat :=
  (((contacts.filter fun c => c.userId == userId && c.date == today).map
      fun c => c.developerId).eraseDups).length

/-- The database state the contact subsystem touches: the `developers` and
`contacts` tables. -/
structure DB where
  developers : List Developer
  contacts : List Contact
  deriving DecidableEq, Repr

/-- The error responses of `POST /api/developers/:id/contact`
(`src/server.js`, lines 582-673), in the order the handler can produce
them: 404, 400 (own profile), 403 (student), 429 (daily limit). -/
inductive ContactError where
  | notFound
  | selfViewNotAllowed
  | roleNotPermitted
  | quotaExceeded
  deriving DecidableEq, Repr

/-- The 200 response of the contact handler: the full developer row and
`remainingContacts`, which is a number for companies and `null` for other
roles. -/
structure ContactOk where
  developer : Developer
  remainingContacts : Option Int
  deriving DecidableEq, Repr

/-- `POST /api/developers/:id/contact` (`src/server.js`, lines 582-673).
The handler, in order: resolve the developer (404 if absent); reject
viewing one's own profile; reject students; for a company that has not
already viewed this developer today, check the distinct-developer count
against the daily limit of 10 and insert a new contact row; finally return
the full developer row together with `10 - count` for companies and `null`
otherwise.  `today` is the current UTC day and `cid` the fresh row id.
The returned pair is (response, database state after the request). -/
def viewContact (db : DB) (p : Principal) (devId today cid : String) :
    Except ContactError ContactOk × DB :=
  match db.developers.find? (fun d => d.id == devId) with
  | none => (.error .notFound, db)
  | some developer =>
      if developer.userId = p.userId then (.error .selfViewNotAllowed, db)
      else if p.role = .student then (.error .roleNotPermitted, db)
      else if p.role = .company ∧
          alreadyViewedToday db.contacts p.userId devId today = false then
        if 10 ≤ countDistinctToday db.contacts p.userId today then
          (.error .quotaExceeded, db)
        else
          (.ok ⟨developer,
              some ((10 : Int) -
                countDistinctToday
                  (db.contacts ++ [⟨cid, p.userId, devId, today⟩])
                  p.userId today)⟩,
            { db with contacts :=
                db.contacts ++ [⟨cid, p.userId, devId, today⟩] })
      else
        (.ok ⟨developer,
            if p.role = .company then
              some ((10 : Int) - countDistinctToday db.contacts p.userId today)
            else none⟩,
          db)

/-- The `stats` object of `GET /api/contacts/stats` (`src/server.js`,
lines 676-700). -/
structure ContactStats where
  contactsToday : Nat
  remainingContacts : Int
  limit : Nat
  deriving DecidableEq, Repr

/-- `GET /api/contacts/stats` (`src/server.js`, lines 676-700): guarded by
the `isCompany` middleware (`none` models its 403 for non-company roles),
it returns the distinct-developer count for today, `Math.max(0, 10 - count)`
and the limit 10. -/
def contactStats (p : Principal) (contacts : List Contact)
    (today : String) : Option ContactStats :=
  if p.role = .company then
    some ⟨countDistinctToday contacts p.userId today,
          max 0 ((10 : Int) - countDistinctToday contacts p.userId today),
          10⟩
  else none

/-- `DELETE /api/admin/developers/:id` (`src/server.js`, lines 848-875)
restricted to its effect on the modelled state: the developer row is
removed, and `FOREIGN KEY (developerId) ... ON DELETE CASCADE` removes the
contact rows referencing it. -/
def deleteDeveloperDB (db : DB) (did : String) : DB :=
  { developers := db.developers.filter fun d => !(d.id == did),
    contacts := db.contacts.filter fun c => !(c.developerId == did) }

/-- `DELETE /api/admin/users/:userId` (`src/server.js`, lines 818-845)
restricted to its effect on the modelled state: cascading deletes remove
the user's developer row and every contact row referencing either the user
or that developer row. -/
def deleteUserDB (db : DB) (uid : String) : DB :=
  { developers := db.developers.filter fun d => !(d.userId == uid),
    contacts := db.contacts.filter fun c =>
      !(c.userId == uid) &&
      !(db.developers.any fun d => d.userId == uid && d.id == c.developerId) }

/-- `POST /api/developers` (`src/server.js`, lines 398-465) restricted to
its effect on the modelled state: a new developer row is appended; the
`contacts` table is untouched. -/
def createDeveloperDB (db : DB) (d : Developer) : DB :=
  { db with developers := db.developers ++ [d] }

/-- `PUT /api/developers/:id` (`src/server.js`, lines 468-577) restricted
to its effect on the modelled state: some developer rows are rewritten in
place; the `contacts` table is untouched. -/
def updateDeveloperDB (db : DB) (f : Developer → Developer) : DB :=
  { db with developers := db.developers.map f }

/-- One state transition of the system: any of the handlers that write to
the modelled tables (the contact action, admin deletions, profile
creation/update).  The remaining routes do not write to `developers` or
`contacts`. -/
inductive Step : DB → DB → Prop where
  | contact (db : DB) (p : Principal) (devId today cid : String) :
      Step db (viewContact db p devId today cid).2
  | removeUser (db : DB) (uid : String) : Step db (deleteUserDB db uid)
  | removeDeveloper (db : DB) (did : String) :
      Step db (deleteDeveloperDB db did)
  | addDeveloper (db : DB) (d : Developer) :
      Step db (createDeveloperDB db d)
  | editDeveloper (db : DB) (f : Developer → Developer) :
      Step db (updateDeveloperDB db f)

/-- The `contacts` uniqueness invariant: no two rows share the
`(userId, developerId, date)` triple. -/
def ledgerUnique (contacts : List Contact) : Prop :=
  contacts.Pairwise fun a b => contactKey a ≠ contactKey b

/-- The state after `initializeDatabase` (`src/unnamed/part_001`,
lines 46-109): freshly created, empty tables. -/
def DB.init : DB := ⟨[], []⟩

/-! ## Interleaved execution of concurrent contact requests

`POST /api/developers/:id/contact` records a view with three separate
database statements (`src/server.js`, lines 617-646): the `SELECT`
duplicate check, the `SELECT COUNT(DISTINCT ...)` quota check, and a plain
`INSERT INTO contacts`.  Node's await points between those statements let
the statements of two concurrent requests interleave arbitrarily; each
single statement is atomic at the storage layer.  The `INSERT` is subject
to `UNIQUE KEY unique_contact (userId, developerId, date)`
(`src/unnamed/part_001`, line 100): inserting a row whose key triple is
already present fails with a duplicate-key error, which the handler's
`catch` turns into a 500 response. -/

/-- The storage layer's `INSERT INTO contacts` under the unique key:
refuse (duplicate-key error) when a row with the same
`(userId, developerId, date)` already exists, otherwise append the row. -/
def insertContact (contacts : List Contact) (c : Contact) :
    Except Unit (List Contact) :=
  if contacts.any (fun x =>
      x.userId == c.userId && x.developerId == c.developerId &&
      x.date == c.date) then
    .error ()
  else
    .ok (contacts ++ [c])

/-- Outcome of one interleaved company contact request: a 200 with or
without a newly created row, a 429, or a 500 from a duplicate-key error on
the `INSERT`. -/
inductive ReqOutcome where
  | viewed (created : Bool)
  | limited
  | dbError
  deriving DecidableEq, Repr

/-- The request-local data of one company contact request: the viewer, the
target developer, the current day, and the fresh row id. -/
structure ReqCtx where
  userId : String
  devId : String
  today : String
  cid : String
  deriving DecidableEq, Repr

/-- Where one in-flight company contact request stands between its
database statements: not yet started; after the duplicate check (holding
its result); after the quota count (holding the count, reached only when
the duplicate check found nothing); finished. -/
inductive ReqPhase where
  | start
  | checked (already : Bool)
  | counted (consumed : Nat)
  | finished (r : ReqOutcome)
  deriving DecidableEq, Repr

/-- One database statement of a company contact request, against the
current `contacts` table: the duplicate check, then either the early 200
for an already-viewed developer or the quota count, then either the 429 or
the guarded `INSERT`. -/
def reqStep (ctx : ReqCtx) (ph : ReqPhase) (contacts : List Contact) :
    ReqPhase × List Contact :=
  match ph with
  | .start =>
      (.checked (alreadyViewedToday contacts ctx.userId ctx.devId ctx.today),
        contacts)
  | .checked a =>
      if a then (.finished (.viewed false), contacts)
      else (.counted (countDistinctToday contacts ctx.userId ctx.today),
        contacts)
  | .counted n =>
      if 10 ≤ n then (.finished .limited, contacts)
      else
        match insertContact contacts ⟨ctx.cid, ctx.userId, ctx.devId, ctx.today⟩ with
        | .ok l => (.finished (.viewed true), l)
        | .error _ => (.finished .dbError, contacts)
  | .finished r => (.finished r, contacts)

/-- Joint state of two concurrent contact requests over a shared
`contacts` table. -/
structure RaceState where
  phase1 : ReqPhase
  phase2 : ReqPhase
  contacts : List Contact
  deriving DecidableEq, Repr

/-- Run one database statement of request 1 (`first = true`) or request 2
(`first = false`). -/
def raceStep (c1 c2 : ReqCtx) (s : RaceState) (first : Bool) : RaceState :=
  if first then
    let r := reqStep c1 s.phase1 s.contacts
    { s with phase1 := r.1, contacts := r.2 }
  else
    let r := reqStep c2 s.phase2 s.contacts
    { s with phase2 := r.1, contacts := r.2 }

/-- Run the two requests under a schedule (the list of which request
executes its next database statement). -/
def runRace (c1 c2 : ReqCtx) (sched : List Bool) (s : RaceState) : RaceState :=
  sched.foldl (raceStep c1 c2) s

/-- Number of `contacts` rows carrying a given key triple. -/
def countKey (contacts : List Contact) (u d day : String) : Nat :=
  (contacts.filter fun c =>
    c.userId == u && c.developerId == d && c.date == day).length

/-! ## Concrete fixtures used by the witness theorems -/

/-- A sample developer row. -/
def devA : Developer :=
  ⟨"d1", "u1", "Ada", "Lovelace", "remote", "web", some ("gh"), some ("li"),
    "ada@example.com"⟩

/-- Ten contact rows by the company user `comp` on ten distinct developers
other than `d1`, all on the same day. -/
def tenOtherContacts : List Contact :=
  [⟨"k1", "comp", "x1", "2024-01-01"⟩, ⟨"k2", "comp", "x2", "2024-01-01"⟩,
   ⟨"k3", "comp", "x3", "2024-01-01"⟩, ⟨"k4", "comp", "x4", "2024-01-01"⟩,
   ⟨"k5", "comp", "x5", "2024-01-01"⟩, ⟨"k6", "comp", "x6", "2024-01-01"⟩,
   ⟨"k7", "comp", "x7", "2024-01-01"⟩, ⟨"k8", "comp", "x8", "2024-01-01"⟩,
   ⟨"k9", "comp", "x9", "2024-01-01"⟩, ⟨"k10", "comp", "x10", "2024-01-01"⟩]

/-- Ten contact rows by `comp` on ten distinct developers, `d1` among
them, all on the same day. -/
def tenWithTarget : List Contact :=
  ⟨"k0", "comp", "d1", "2024-01-01"⟩ :: tenOtherContacts.tail

/-- Eleven contact rows by `comp` on eleven distinct developers, `d1`
among them, all on the same day (a state only a count-check race can
produce, used to contrast the two remaining-quota formulas). -/
def elevenContacts : List Contact :=
  ⟨"k0", "comp", "d1", "2024-01-01"⟩ :: tenOtherContacts

/-! ## C1: role-conditioned redaction of the read projections -/

/-- C1.  For every developer record, the read projection (list and
single-record) of an anonymous viewer, an invalid-token viewer, or a
company viewer contains none of `email`, `github`, `linkedin` (the keys
are absent); for a student or admin viewer both read operations return
every stored field unredacted. -/
theorem contact_fields_redaction (v : Viewer) (devs : List Developer)
    (i : String) (w : DeveloperView) (d : Developer) :
    ((v = .anonymous ∨ v = .invalidToken ∨
        (∃ u, v = .authed ⟨u, .company⟩)) →
      (w ∈ listDevelopers v devs ∨ getDeveloperById v devs i = some w) →
      w.email = none ∧ w.github = none ∧ w.linkedin = none) ∧
    ((∃ u, v = .authed ⟨u, .student⟩ ∨ v = .authed ⟨u, .admin⟩) →
      listDevelopers v devs = devs.map fullDev) ∧
    ((∃ u, v = .authed ⟨u, .student⟩ ∨ v = .authed ⟨u, .admin⟩) →
      devs.find? (fun x => x.id == i) = some d →
      getDeveloperById v devs i = some (fullDev d)) := by
  refine ⟨?_, ?_, ?_⟩
  · intro hv hw
    have hl : listDevelopers v devs = devs.map redactDev := by
      rcases hv with rfl | rfl | ⟨u, rfl⟩ <;> simp [listDevelopers]
    have hg : getDeveloperById v devs i =
        (devs.find? (fun x => x.id == i)).map redactDev := by
      rcases hv with rfl | rfl | ⟨u, rfl⟩ <;>
        cases hf : devs.find? (fun x => x.id == i) <;>
          simp [getDeveloperById, hf]
    rcases hw with hw | hw
    · rw [hl] at hw
      obtain ⟨x, _, rfl⟩ := List.mem_map.mp hw
      simp [redactDev]
    · rw [hg] at hw
      cases hf : devs.find? (fun x => x.id == i) with
      | none => rw [hf] at hw; cases hw
      | some x =>
          rw [hf] at hw
          obtain rfl : redactDev x = w := by simpa using hw
          simp [redactDev]
  · rintro ⟨u, (rfl | rfl)⟩ <;> simp [listDevelopers]
  · rintro ⟨u, (rfl | rfl)⟩ hf <;> simp [getDeveloperById, hf]

/-- Witness for C1 at a concrete record: the anonymous list view of `devA`
is redacted, and a student sees the full record through both endpoints. -/
theorem contact_fields_redaction_witness :
    ((redactDev devA).email = none ∧ (redactDev devA).github = none ∧
      (redactDev devA).linkedin = none) ∧
    listDevelopers (.authed ⟨"s", .student⟩) [devA] = [devA].map fullDev ∧
    getDeveloperById (.authed ⟨"s", .student⟩) [devA] "d1" =
      some (fullDev devA) :=
  ⟨(contact_fields_redaction .anonymous [devA] "d1" (redactDev devA) devA).1
      (Or.inl rfl) (Or.inl (by decide)),
   (contact_fields_redaction (.authed ⟨"s", .student⟩) [devA] "d1"
      (redactDev devA) devA).2.1 ⟨"s", Or.inl rfl⟩,
   (contact_fields_redaction (.authed ⟨"s", .student⟩) [devA] "d1"
      (redactDev devA) devA).2.2 ⟨"s", Or.inl rfl⟩ (by decide)⟩

/-! ## C5: invalid credentials read exactly like anonymous -/

/-- C5.  On both read operations an invalid or expired credential produces
exactly the response of an anonymous request, and that response is the
redacted view of each stored record, never the full record. -/
theorem invalid_token_reads_as_anonymous (devs : List Developer)
    (i : String) :
    listDevelopers .invalidToken devs = listDevelopers .anonymous devs ∧
    getDeveloperById .invalidToken devs i =
      getDeveloperById .anonymous devs i ∧
    listDevelopers .invalidToken devs = devs.map redactDev ∧
    getDeveloperById .invalidToken devs i =
      (devs.find? (fun x => x.id == i)).map redactDev := by
  refine ⟨rfl, ?_, rfl, ?_⟩ <;>
    cases hf : devs.find? (fun x => x.id == i) <;>
      simp [getDeveloperById, hf]

/-! ## C6: precondition order of the contact action -/

/-- C6.  `viewContact` checks its preconditions in the fixed order
NotFound, then SelfViewNotAllowed, then RoleNotPermitted: a nonexistent
developer id yields `notFound` for every principal; an existing record
owned by the caller yields `selfViewNotAllowed` regardless of role; and a
student targeting another user's existing record yields
`roleNotPermitted`.  Each rejection leaves the database unchanged. -/
theorem viewContact_precondition_order (db : DB) (p : Principal)
    (devId today cid : String) (d : Developer) :
    (db.developers.find? (fun x => x.id == devId) = none →
      viewContact db p devId today cid = (.error .notFound, db)) ∧
    (db.developers.find? (fun x => x.id == devId) = some d →
      d.userId = p.userId →
      viewContact db p devId today cid = (.error .selfViewNotAllowed, db)) ∧
    (db.developers.find? (fun x => x.id == devId) = some d →
      d.userId ≠ p.userId → p.role = .student →
      viewContact db p devId today cid = (.error .roleNotPermitted, db)) := by
  refine ⟨?_, ?_, ?_⟩
  · intro hf; simp [viewContact, hf]
  · intro hf hown; simp [viewContact, hf, hown]
  · intro hf hown hrole; simp [viewContact, hf, hown, hrole]

/-- Witness for C6: the three rejections at concrete inputs (missing id;
an admin hitting their own record; a student hitting another's record). -/
theorem viewContact_precondition_order_witness :
    viewContact ⟨[devA], []⟩ ⟨"z", .company⟩ "zz" "2024-01-01" "c" =
      (.error .notFound, ⟨[devA], []⟩) ∧
    viewContact ⟨[devA], []⟩ ⟨"u1", .admin⟩ "d1" "2024-01-01" "c" =
      (.error .selfViewNotAllowed, ⟨[devA], []⟩) ∧
    viewContact ⟨[devA], []⟩ ⟨"z", .student⟩ "d1" "2024-01-01" "c" =
      (.error .roleNotPermitted, ⟨[devA], []⟩) :=
  ⟨(viewContact_precondition_order ⟨[devA], []⟩ ⟨"z", .company⟩ "zz"
      "2024-01-01" "c" devA).1 (by decide),
   (viewContact_precondition_order ⟨[devA], []⟩ ⟨"u1", .admin⟩ "d1"
      "2024-01-01" "c" devA).2.1 (by decide) (by decide),
   (viewContact_precondition_order ⟨[devA], []⟩ ⟨"z", .student⟩ "d1"
      "2024-01-01" "c" devA).2.2 (by decide) (by decide) (by decide)⟩

/-! ## C7: admins bypass the quota and the ledger -/

/-- C7.  For an admin principal and an existing developer record they do
not own, `viewContact` succeeds with `remainingContacts = null` and the
database — in particular the `contacts` ledger — is returned unchanged. -/
theorem admin_viewContact_no_ledger_write (db : DB) (p : Principal)
    (devId today cid : String) (d : Developer)
    (hrole : p.role = .admin)
    (hfind : db.developers.find? (fun x => x.id == devId) = some d)
    (hown : d.userId ≠ p.userId) :
    viewContact db p devId today cid = (.ok ⟨d, none⟩, db) := by
  simp [viewContact, hfind, hown, hrole]

/-- Witness for C7 at a concrete admin and record. -/
theorem admin_viewContact_no_ledger_write_witness :
    viewContact ⟨[devA], []⟩ ⟨"adm", .admin⟩ "d1" "2024-01-01" "c" =
      (.ok ⟨devA, none⟩, ⟨[devA], []⟩) :=
  admin_viewContact_no_ledger_write ⟨[devA], []⟩ ⟨"adm", .admin⟩ "d1"
    "2024-01-01" "c" devA rfl (by decide) (by decide)

/-! ## C8: a successful contact action discloses the stored record -/

/-- C8.  Whenever `viewContact` succeeds, the developer value in the
response is exactly the stored row resolved by the id lookup — the full
`Developer` record, with `email`, `github` and `linkedin` carrying their
stored values. -/
theorem viewContact_returns_stored_record (db : DB) (p : Principal)
    (devId today cid : String) (o : ContactOk) (db2 : DB)
    (h : viewContact db p devId today cid = (.ok o, db2)) :
    db.developers.find? (fun x => x.id == devId) = some o.developer := by
  cases hf : db.developers.find? (fun x => x.id == devId) with
  | none => simp [viewContact, hf] at h
  | some dev =>
      simp only [viewContact, hf] at h
      split at h
      · simp at h
      · split at h
        · simp at h
        · split at h
          · split at h
            · simp at h
            · obtain ⟨rfl, -⟩ : (⟨dev, _⟩ : ContactOk) = o ∧ _ = db2 := by
                simpa using h
              simp [hf]
          · obtain ⟨rfl, -⟩ : (⟨dev, _⟩ : ContactOk) = o ∧ _ = db2 := by
              simpa using h
            simp [hf]

/-- Witness for C8 at a concrete successful company view. -/
theorem viewContact_returns_stored_record_witness :
    ([devA].find? fun x => x.id == "d1") =
      some (ContactOk.developer ⟨devA, some 9⟩) :=
  viewContact_returns_stored_record ⟨[devA], []⟩ ⟨"comp", .company⟩ "d1"
    "2024-01-01" "c" ⟨devA, some 9⟩
    ⟨[devA], [⟨"c", "comp", "d1", "2024-01-01"⟩]⟩ rfl

/-! ## C2: the quota boundary at exactly 10 distinct developers -/

/-- C2.  For a company principal with exactly 10 distinct developers
recorded today and an existing target record they do not own: if the
target is not among today's views, `viewContact` rejects with
`quotaExceeded` and the database is unchanged; if the target is among
them, the call succeeds (with zero remaining quota, on the unchanged
database). -/
theorem company_quota_boundary (db : DB) (p : Principal)
    (devId today cid : String) (d : Developer)
    (hrole : p.role = .company)
    (hfind : db.developers.find? (fun x => x.id == devId) = some d)
    (hown : d.userId ≠ p.userId)
    (hcount : countDistinctToday db.contacts p.userId today = 10) :
    (alreadyViewedToday db.contacts p.userId devId today = false →
      viewContact db p devId today cid = (.error .quotaExceeded, db)) ∧
    (alreadyViewedToday db.contacts p.userId devId today = true →
      viewContact db p devId today cid = (.ok ⟨d, some 0⟩, db)) := by
  constructor
  · intro hav
    simp [viewContact, hfind, hown, hrole, hav, hcount]
  · intro hav
    simp [viewContact, hfind, hown, hrole, hav, hcount]

/-- Witness for C2: with ten distinct developers recorded, an 11th
distinct developer is rejected while re-viewing a recorded one
succeeds. -/
theorem company_quota_boundary_witness :
    viewContact ⟨[devA], tenOtherContacts⟩ ⟨"comp", .company⟩ "d1"
        "2024-01-01" "c" =
      (.error .quotaExceeded, ⟨[devA], tenOtherContacts⟩) ∧
    viewContact ⟨[devA], tenWithTarget⟩ ⟨"comp", .company⟩ "d1"
        "2024-01-01" "c" =
      (.ok ⟨devA, some 0⟩, ⟨[devA], tenWithTarget⟩) :=
  ⟨(company_quota_boundary ⟨[devA], tenOtherContacts⟩ ⟨"comp", .company⟩
      "d1" "2024-01-01" "c" devA rfl (by decide) (by decide)
      (by decide)).1 (by decide),
   (company_quota_boundary ⟨[devA], tenWithTarget⟩ ⟨"comp", .company⟩
      "d1" "2024-01-01" "c" devA rfl (by decide) (by decide)
      (by decide)).2 (by decide)⟩

/-! ## C10: the stats endpoint clamps, the contact endpoint does not -/

/-- C10.  For a company principal, `GET /api/contacts/stats` returns
`limit = 10`, `contactsToday` equal to the distinct-developer count for
today, and `remainingContacts = max 0 (10 - count)` — never negative —
whereas a successful `viewContact` reports `10 - count` over the
post-request ledger, without clamping. -/
theorem quota_stats_clamped (p : Principal) (contacts : List Contact)
    (today : String) (s : ContactStats) (db : DB)
    (devId cid : String) (o : ContactOk) (db2 : DB)
    (hrole : p.role = .company) :
    contactStats p contacts today =
      some ⟨countDistinctToday contacts p.userId today,
            max 0 ((10 : Int) - countDistinctToday contacts p.userId today),
            10⟩ ∧
    (contactStats p contacts today = some s → 0 ≤ s.remainingContacts) ∧
    (viewContact db p devId today cid = (.ok o, db2) →
      o.remainingContacts =
        some ((10 : Int) - countDistinctToday db2.contacts p.userId today)) := by
  refine ⟨by simp [contactStats, hrole], ?_, ?_⟩
  · intro hs
    simp only [contactStats, hrole, if_pos, Option.some.injEq] at hs
    rw [← hs]
    exact le_max_left 0 _
  · intro h
    cases hf : db.developers.find? (fun x => x.id == devId) with
    | none => simp [viewContact, hf] at h
    | some dev =>
        simp only [viewContact, hf] at h
        split at h
        · simp at h
        · split at h
          · simp at h
          · split at h
            · split at h
              · simp at h
              · obtain ⟨rfl, rfl⟩ :
                    (⟨dev, _⟩ : ContactOk) = o ∧ _ = db2 := by simpa using h
                rfl
            · obtain ⟨rfl, rfl⟩ :
                  (⟨dev, _⟩ : ContactOk) = o ∧ _ = db2 := by simpa using h
              simp [hrole]

/-- Witness for C10 at a ledger holding eleven distinct developers for
the day (a state only the documented count-check race can produce): the
stats endpoint clamps to zero while the contact endpoint reports `-1`. -/
theorem quota_stats_clamped_witness :
    contactStats ⟨"comp", .company⟩ (elevenContacts) "2024-01-01" =
      some ⟨countDistinctToday (elevenContacts) "comp" "2024-01-01",
            max 0 ((10 : Int) -
              countDistinctToday (elevenContacts) "comp" "2024-01-01"),
            10⟩ ∧
    (0 : Int) ≤ (⟨11, 0, 10⟩ : ContactStats).remainingContacts ∧
    (⟨devA, some (-1)⟩ : ContactOk).remainingContacts =
      some ((10 : Int) -
        countDistinctToday (elevenContacts) "comp" "2024-01-01") :=
  ⟨(quota_stats_clamped ⟨"comp", .company⟩ (elevenContacts) "2024-01-01"
      ⟨11, 0, 10⟩ ⟨[devA], elevenContacts⟩ "d1" "c" ⟨devA, some (-1)⟩
      ⟨[devA], elevenContacts⟩ rfl).1,
   (quota_stats_clamped ⟨"comp", .company⟩ (elevenContacts) "2024-01-01"
      ⟨11, 0, 10⟩ ⟨[devA], elevenContacts⟩ "d1" "c" ⟨devA, some (-1)⟩
      ⟨[devA], elevenContacts⟩ rfl).2.1 (by decide),
   (quota_stats_clamped ⟨"comp", .company⟩ (elevenContacts) "2024-01-01"
      ⟨11, 0, 10⟩ ⟨[devA], elevenContacts⟩ "d1" "c" ⟨devA, some (-1)⟩
      ⟨[devA], elevenContacts⟩ rfl).2.2 rfl⟩

/-! ## C3: same-day idempotence of the contact action -/

/-- C3.  For a company principal, a second `viewContact` on the same
(viewer, developer) pair on the same day is a no-op on the ledger and
returns exactly the first call's response: same developer, same
`remainingContacts`, and the database stays at the state after the first
call. -/
theorem viewContact_idempotent_same_day (db : DB) (p : Principal)
    (devId today cid1 cid2 : String) (o1 : ContactOk) (db1 : DB)
    (hrole : p.role = .company)
    (h1 : viewContact db p devId today cid1 = (.ok o1, db1)) :
    viewContact db1 p devId today cid2 = (.ok o1, db1) := by
  cases hf : db.developers.find? (fun x => x.id == devId) with
  | none => simp [viewContact, hf] at h1
  | some dev =>
      simp only [viewContact, hf] at h1
      by_cases hself : dev.userId = p.userId
      · rw [if_pos hself] at h1; simp at h1
      rw [if_neg hself] at h1
      have hstud : ¬p.role = .student := by simp [hrole]
      rw [if_neg hstud] at h1
      by_cases hav : alreadyViewedToday db.contacts p.userId devId today = false
      · rw [if_pos ⟨hrole, hav⟩] at h1
        by_cases hq : 10 ≤ countDistinctToday db.contacts p.userId today
        · rw [if_pos hq] at h1; simp at h1
        rw [if_neg hq] at h1
        obtain ⟨rfl, rfl⟩ : (⟨dev, _⟩ : ContactOk) = o1 ∧ _ = db1 := by
          simpa using h1
        have hav2 : alreadyViewedToday
            (db.contacts ++ [⟨cid1, p.userId, devId, today⟩])
            p.userId devId today = true := by
          simp [alreadyViewedToday]
        simp [viewContact, hf, hself, hstud, hav2, hrole]
      · have hav2 : alreadyViewedToday db.contacts p.userId devId today = true := by
          revert hav; cases alreadyViewedToday db.contacts p.userId devId today <;> simp
        rw [if_neg (by simp [hav2])] at h1
        obtain ⟨rfl, rfl⟩ : (⟨dev, _⟩ : ContactOk) = o1 ∧ db = db1 := by
          simpa using h1
        simp [viewContact, hf, hself, hstud, hav2, hrole]

/-- Witness for C3: after a first successful company view, the repeat
call on the same day returns the identical response on the unchanged
ledger. -/
theorem viewContact_idempotent_same_day_witness :
    viewContact
        ⟨[devA], [⟨"c1", "comp", "d1", "2024-01-01"⟩]⟩
        ⟨"comp", .company⟩ "d1" "2024-01-01" "c2" =
      (.ok ⟨devA, some 9⟩,
        ⟨[devA], [⟨"c1", "comp", "d1", "2024-01-01"⟩]⟩) :=
  viewContact_idempotent_same_day ⟨[devA], []⟩ ⟨"comp", .company⟩ "d1"
    "2024-01-01" "c1" "c2" ⟨devA, some 9⟩
    ⟨[devA], [⟨"c1", "comp", "d1", "2024-01-01"⟩]⟩ rfl rfl

/-! ## C4: uniqueness of (viewerUserId, developerId, day) in the ledger -/

/-- The contact handler either leaves the `contacts` table unchanged, or —
only when the duplicate check came back empty — appends the one new
row for the request's key. -/
lemma viewContact_contacts_eq (db : DB) (p : Principal)
    (devId today cid : String) :
    (viewContact db p devId today cid).2.contacts = db.contacts ∨
    (alreadyViewedToday db.contacts p.userId devId today = false ∧
      (viewContact db p devId today cid).2.contacts =
        db.contacts ++ [⟨cid, p.userId, devId, today⟩]) := by
  cases hf : db.developers.find? (fun x => x.id == devId) with
  | none => left; simp [viewContact, hf]
  | some dev =>
      simp only [viewContact, hf]
      split
      · left; rfl
      split
      · left; rfl
      split
      · rename_i hcond
        split
        · left; rfl
        · right; exact ⟨hcond.2, rfl⟩
      · left; rfl

/-- Appending a row whose key is absent from the table preserves the
ledger uniqueness invariant. -/
lemma ledgerUnique_append (contacts : List Contact) (u devId today cid : String)
    (h : ledgerUnique contacts)
    (hnew : alreadyViewedToday contacts u devId today = false) :
    ledgerUnique (contacts ++ [⟨cid, u, devId, today⟩]) := by
  rw [ledgerUnique, List.pairwise_append]
  refine ⟨h, List.pairwise_singleton _ _, ?_⟩
  intro a ha b hb
  simp only [List.mem_singleton] at hb
  subst hb
  simp only [alreadyViewedToday, List.any_eq_true, not_exists, Bool.and_eq_true,
    beq_iff_eq] at hnew
  intro hk
  simp only [contactKey, Prod.mk.injEq] at hk
  obtain ⟨h1, h2, h3⟩ := hk
  have := List.any_eq_false.mp hnew a ha
  simp [h1, h2, h3] at this

/-- C4.  The ledger invariant — no two `contacts` rows share the
`(viewerUserId, developerId, day)` triple — holds in the initial (empty)
state and is preserved by every state transition of the system, however
often the contact action is invoked. -/
theorem ledger_key_unique_invariant :
    ledgerUnique DB.init.contacts ∧
    ∀ db db2 : DB, Step db db2 →
      ledgerUnique db.contacts → ledgerUnique db2.contacts := by
  constructor
  · exact List.Pairwise.nil
  intro db db2 hstep h
  cases hstep with
  | contact p devId today cid =>
      rcases viewContact_contacts_eq db p devId today cid with he | ⟨hnew, he⟩
      · rw [he]; exact h
      · rw [he]; exact ledgerUnique_append db.contacts p.userId devId today cid h hnew
  | removeUser uid => exact List.Pairwise.filter _ h
  | removeDeveloper did => exact List.Pairwise.filter _ h
  | addDeveloper d => exact h
  | editDeveloper f => exact h

/-- Witness for C4: preservation applied to a concrete contact step from
a concrete unique ledger. -/
theorem ledger_key_unique_invariant_witness :
    ledgerUnique
      (viewContact ⟨[devA], []⟩ ⟨"comp", .company⟩ "d1" "2024-01-01"
        "c1").2.contacts :=
  ledger_key_unique_invariant.2 ⟨[devA], []⟩ _
    (Step.contact ⟨[devA], []⟩ ⟨"comp", .company⟩ "d1" "2024-01-01" "c1")
    List.Pairwise.nil

/-! ## C9: duplicate contact requests under interleaving -/

/-- A successful `INSERT` (under the unique key) means the key was absent
and exactly the one row was appended. -/
lemma insertContact_ok (contacts : List Contact) (c : Contact)
    (l : List Contact) (h : insertContact contacts c = .ok l) :
    (contacts.any fun x =>
      x.userId == c.userId && x.developerId == c.developerId &&
      x.date == c.date) = false ∧ l = contacts ++ [c] := by
  unfold insertContact at h
  split at h
  · simp at h
  · rename_i hany
    refine ⟨by simpa using hany, ?_⟩
    injection h with h
    exact h.symm

/-- Each database statement of a contact request keeps at most one
`contacts` row for the request's own key: only the `INSERT` writes, and
the unique key makes it refuse when a row with the key is present. -/
lemma reqStep_countKey_le (ctx : ReqCtx) (ph : ReqPhase)
    (contacts : List Contact)
    (h : countKey contacts ctx.userId ctx.devId ctx.today ≤ 1) :
    countKey (reqStep ctx ph contacts).2 ctx.userId ctx.devId ctx.today ≤ 1 := by
  cases ph with
  | start => exact h
  | checked a => simp only [reqStep]; split <;> exact h
  | counted n =>
      simp only [reqStep]
      split
      · exact h
      · cases hi : insertContact contacts
            ⟨ctx.cid, ctx.userId, ctx.devId, ctx.today⟩ with
        | error e => simp only [hi]; exact h
        | ok l =>
            obtain ⟨hany, rfl⟩ := insertContact_ok contacts _ l hi
            simp only [hi]
            have h0 : (List.filter (fun x =>
                x.userId == ctx.userId && x.developerId == ctx.devId &&
                x.date == ctx.today) contacts).length = 0 := by
              rw [List.length_eq_zero, List.filter_eq_nil_iff]
              intro a ha
              have h2 := List.any_eq_false.mp hany a ha
              simpa using h2
            rw [countKey, List.filter_append, List.length_append]
            have h1 := List.length_filter_le (fun x =>
                x.userId == ctx.userId && x.developerId == ctx.devId &&
                x.date == ctx.today)
              [(⟨ctx.cid, ctx.userId, ctx.devId, ctx.today⟩ : Contact)]
            simp only [List.length_singleton] at h1
            omega
  | finished r => exact h

/-- One scheduled statement of either racing request preserves the
at-most-one-row property of the shared key. -/
lemma raceStep_countKey_le (u d day cid1 cid2 : String) (s : RaceState)
    (b : Bool) (h : countKey s.contacts u d day ≤ 1) :
    countKey (raceStep ⟨u, d, day, cid1⟩ ⟨u, d, day, cid2⟩ s b).contacts
      u d day ≤ 1 := by
  cases b <;> simp only [raceStep, if_true, if_false, Bool.false_eq_true]
  · exact reqStep_countKey_le ⟨u, d, day, cid2⟩ s.phase2 s.contacts h
  · exact reqStep_countKey_le ⟨u, d, day, cid1⟩ s.phase1 s.contacts h

/-- C9 (amended).  Recording a contact event is an application-level
check-then-act — a `SELECT` duplicate check followed by a plain `INSERT`
guarded by the storage layer's unique key.  Under every interleaving of
two concurrent duplicate requests the unique key still ensures that at
most one `contacts` row for the shared (viewer, developer, day) key is
ever created. -/
theorem contact_race_at_most_one_event (u d day cid1 cid2 : String)
    (sched : List Bool) :
    countKey (runRace ⟨u, d, day, cid1⟩ ⟨u, d, day, cid2⟩ sched
        ⟨.start, .start, []⟩).contacts u d day ≤ 1 := by
  suffices h : ∀ s : RaceState, countKey s.contacts u d day ≤ 1 →
      countKey (runRace ⟨u, d, day, cid1⟩ ⟨u, d, day, cid2⟩ sched s).contacts
        u d day ≤ 1 by
    exact h ⟨.start, .start, []⟩ (by simp [countKey])
  induction sched with
  | nil => intro s hs; exact hs
  | cons b rest ih =>
      intro s hs
      simp only [runRace, List.foldl_cons]
      exact ih _ (raceStep_countKey_le u d day cid1 cid2 s b hs)

/-- C9 counterexample.  The interleaving in which both requests pass the
duplicate check before either inserts: the second `INSERT` hits the unique
key, so the duplicate request ends in a database error (the handler's 500)
instead of reporting `created = false` without error — refuting the claim
that the recording is an atomic storage-level insert-if-absent for which a
concurrent duplicate reports `created = false`. -/
theorem contact_race_duplicate_errors :
    (runRace ⟨"comp", "d1", "2024-01-01", "e1"⟩
        ⟨"comp", "d1", "2024-01-01", "e2"⟩
        [true, false, true, false, true, false]
        ⟨.start, .start, []⟩).phase1 = .finished (.viewed true) ∧
    (runRace ⟨"comp", "d1", "2024-01-01", "e1"⟩
        ⟨"comp", "d1", "2024-01-01", "e2"⟩
        [true, false, true, false, true, false]
        ⟨.start, .start, []⟩).phase2 = .finished .dbError ∧
    (runRace ⟨"comp", "d1", "2024-01-01", "e1"⟩
        ⟨"comp", "d1", "2024-01-01", "e2"⟩
        [true, false, true, false, true, false]
        ⟨.start, .start, []⟩).contacts =
      [⟨"e1", "comp", "d1", "2024-01-01"⟩] :=
  ⟨rfl, rfl, rfl⟩

end DevDirectory
